import Mathlib

/-!
Verification development for the `bevy_crossterm` terminal renderer.

The runner (`src/runner.rs`) is embedded as a pure state-passing model:
terminal side effects become an explicit trace of `TermCommand`s, the
bevy world's event channel becomes a list of `SentEvent`s, and the
fallible environment (crossterm calls, the host's `app.update()`) is
described by explicit scripts.  Panics (`expect` / `unwrap`) are
modelled with `Except`/sum results.  The asset loaders
(`src/asset_loaders.rs`) are embedded over an explicit byte list.
Components that live in files not present in this snapshot
(`components.rs`, `systems.rs`) are modelled from the specification and
carry a doc comment saying so.
-/

set_option maxHeartbeats 1600000

namespace BevyCrossterm

/-- Modelled from the spec: global window colors (last-written
foreground/background pair); the concrete color enum lives in the
missing `components.rs`, so colors are abstract identifiers here. -/
structure Colors where
  foreground : Nat
  background : Nat
deriving DecidableEq, Repr

/-- Modelled from the spec: the default terminal colors
(`Colors::term_colors()`). -/
def Colors.term_colors : Colors := ⟨0, 0⟩

/-- `CrosstermWindowSettings` from `lib.rs`: colors plus optional title. -/
structure CrosstermWindowSettings where
  colors : Colors
  title : Option String
deriving DecidableEq, Repr

/-- `Default for CrosstermWindowSettings` from `lib.rs`. -/
def CrosstermWindowSettings.default : CrosstermWindowSettings :=
  ⟨Colors.term_colors, none⟩

/-- The `CrosstermWindow` component: tracked terminal dimensions, colors,
title, and whether keyboard-enhancement flags were pushed
(`runner.rs` constructs this five-field record). `u16` dimensions are
modelled as `Nat`. -/
structure CrosstermWindow where
  height : Nat
  width : Nat
  colors : Colors
  title : Option String
  supports_keyboard_enhancement : Bool
deriving DecidableEq, Repr

/-- `crossterm::event::KeyModifiers`: a bitflags set with six flags. -/
structure KeyModifiers where
  shift : Bool
  control : Bool
  alt : Bool
  superKey : Bool
  hyperKey : Bool
  metaKey : Bool
deriving DecidableEq, Repr

/-- `KeyModifiers::empty()`. -/
def KeyModifiers.empty : KeyModifiers := ⟨false, false, false, false, false, false⟩

/-- The modifier set holding exactly `SHIFT`, produced by the shifted-character
rows of `to_bevy_keycode`. -/
def KeyModifiers.shiftOnly : KeyModifiers := ⟨true, false, false, false, false, false⟩

/-- A single modifier flag (one set bit of `KeyModifiers`). -/
inductive ModFlag
| shift
| control
| alt
| superKey
| hyperKey
| metaKey
deriving DecidableEq, Repr

/-- Whether a flag is set (`KeyModifiers::contains` on a single flag). -/
def KeyModifiers.hasFlag (m : KeyModifiers) : ModFlag → Bool
| .shift => m.shift
| .control => m.control
| .alt => m.alt
| .superKey => m.superKey
| .hyperKey => m.hyperKey
| .metaKey => m.metaKey

/-- `KeyModifiers::symmetric_difference`: per-flag exclusive or. -/
def KeyModifiers.symmetricDifference (a b : KeyModifiers) : KeyModifiers :=
  ⟨xor a.shift b.shift, xor a.control b.control, xor a.alt b.alt,
   xor a.superKey b.superKey, xor a.hyperKey b.hyperKey, xor a.metaKey b.metaKey⟩

/-- All six flags in the bitflags iteration order (ascending bit value:
SHIFT, CONTROL, ALT, SUPER, HYPER, META). -/
def allModFlags : List ModFlag :=
  [.shift, .control, .alt, .superKey, .hyperKey, .metaKey]

/-- Iterating a `KeyModifiers` value yields its set flags in bit order
(the `for flag in delta` loop of `crossterm_events`). -/
def KeyModifiers.flags (m : KeyModifiers) : List ModFlag :=
  allModFlags.filter m.hasFlag

/-- `crossterm::event::MediaKeyCode`. -/
inductive MediaKeyCode
| play
| pause
| playPause
| reverse
| stop
| fastForward
| rewind
| trackNext
| trackPrevious
| record
| lowerVolume
| raiseVolume
| muteVolume
deriving DecidableEq, Repr

/-- `crossterm::event::ModifierKeyCode`. -/
inductive ModifierKeyCode
| leftShift
| leftControl
| leftAlt
| leftSuper
| leftHyper
| leftMeta
| rightShift
| rightControl
| rightAlt
| rightSuper
| rightHyper
| rightMeta
| isoLevel3Shift
| isoLevel5Shift
deriving DecidableEq, Repr

/-- `crossterm::event::KeyCode` (the constructors matched in `runner.rs`). -/
inductive CKeyCode
| backspace
| enter
| left
| right
| up
| down
| home
| endKey
| pageUp
| pageDown
| tab
| backTab
| delete
| insert
| f (n : Nat)
| char (c : Char)
| null
| esc
| capsLock
| scrollLock
| numLock
| printScreen
| pause
| menu
| keypadBegin
| media (m : MediaKeyCode)
| modifier (m : ModifierKeyCode)
deriving DecidableEq, Repr

/-- `crossterm::event::KeyEventKind`. -/
inductive KeyEventKind
| press
| repeat
| release
deriving DecidableEq, Repr

/-- `crossterm::event::KeyEvent` (the `state` field is ignored by the
runner — it is destructured as `_state` — so it is not modelled). -/
structure KeyEvent where
  code : CKeyCode
  modifiers : KeyModifiers
  kind : KeyEventKind
deriving DecidableEq, Repr

/-- `bevy::input::ButtonState`. -/
inductive ButtonState
| pressed
| released
deriving DecidableEq, Repr

/-- `bevy::input::keyboard::KeyCode` (the constructors produced by
`to_bevy_keycode` and `modifier_to_bevy`). -/
inductive BKeyCode
| backspace
| enter
| arrowLeft
| arrowRight
| arrowUp
| arrowDown
| home
| endKey
| pageUp
| pageDown
| tab
| delete
| insert
| f1 | f2 | f3 | f4 | f5 | f6 | f7 | f8 | f9 | f10
| f11 | f12 | f13 | f14 | f15 | f16 | f17 | f18 | f19 | f20
| f31 | f32 | f33 | f34 | f35
| digit0 | digit1 | digit2 | digit3 | digit4
| digit5 | digit6 | digit7 | digit8 | digit9
| minus
| bracketLeft
| bracketRight
| comma
| equal
| period
| quote
| semicolon
| slash
| space
| keyA | keyB | keyC | keyD | keyE | keyF | keyG | keyH | keyI | keyJ
| keyK | keyL | keyM | keyN | keyO | keyP | keyQ | keyR | keyS | keyT
| keyU | keyV | keyW | keyX | keyY | keyZ
| escape
| capsLock
| scrollLock
| numLock
| printScreen
| pause
| contextMenu
| mediaPlayPause
| mediaStop
| mediaTrackNext
| mediaTrackPrevious
| audioVolumeDown
| audioVolumeUp
| audioVolumeMute
| shiftLeft
| shiftRight
| controlLeft
| controlRight
| altLeft
| altRight
| superLeft
| superRight
| hyper
| metaKey
deriving DecidableEq, Repr

/-- `bevy::input::keyboard::Key` (the constructors produced by
`to_bevy_key` and `crossterm_modifier_to_bevy_key`). -/
inductive BKey
| shift
| control
| alt
| superKey
| hyper
| metaKey
| altGraph
| character (s : String)
| backspace
| enter
| arrowLeft
| arrowRight
| arrowUp
| arrowDown
| home
| endKey
| pageUp
| pageDown
| tab
| delete
| insert
| f1 | f2 | f3 | f4 | f5 | f6 | f7 | f8 | f9 | f10
| f11 | f12 | f13 | f14 | f15 | f16 | f17 | f18 | f19 | f20
| f31 | f32 | f33 | f34 | f35
| escape
| capsLock
| scrollLock
| numLock
| printScreen
| pause
| contextMenu
| mediaPlay
| mediaPlayPause
| mediaStop
| mediaFastForward
| mediaRewind
| mediaTrackNext
| mediaTrackPrevious
| mediaRecord
| audioVolumeDown
| audioVolumeUp
| audioVolumeMute
deriving Repr

/-- Constructor index of a bevy logical key, used for a linear-size
equality decision procedure (the derived one is quadratic in the
constructor count). -/
def BKey.toIdx : BKey → Nat
| .shift => 0
| .control => 1
| .alt => 2
| .superKey => 3
| .hyper => 4
| .metaKey => 5
| .altGraph => 6
| .character _ => 7
| .backspace => 8
| .enter => 9
| .arrowLeft => 10
| .arrowRight => 11
| .arrowUp => 12
| .arrowDown => 13
| .home => 14
| .endKey => 15
| .pageUp => 16
| .pageDown => 17
| .tab => 18
| .delete => 19
| .insert => 20
| .f1 => 21
| .f2 => 22
| .f3 => 23
| .f4 => 24
| .f5 => 25
| .f6 => 26
| .f7 => 27
| .f8 => 28
| .f9 => 29
| .f10 => 30
| .f11 => 31
| .f12 => 32
| .f13 => 33
| .f14 => 34
| .f15 => 35
| .f16 => 36
| .f17 => 37
| .f18 => 38
| .f19 => 39
| .f20 => 40
| .f31 => 41
| .f32 => 42
| .f33 => 43
| .f34 => 44
| .f35 => 45
| .escape => 46
| .capsLock => 47
| .scrollLock => 48
| .numLock => 49
| .printScreen => 50
| .pause => 51
| .contextMenu => 52
| .mediaPlay => 53
| .mediaPlayPause => 54
| .mediaStop => 55
| .mediaFastForward => 56
| .mediaRewind => 57
| .mediaTrackNext => 58
| .mediaTrackPrevious => 59
| .mediaRecord => 60
| .audioVolumeDown => 61
| .audioVolumeUp => 62
| .audioVolumeMute => 63

/-- The `character` payload of a bevy logical key (empty otherwise). -/
def BKey.str : BKey → String
| .character s => s
| _ => ""

/-- Rebuild a bevy logical key from its constructor index and payload
(left inverse of `toIdx`/`str`). -/
def BKey.ofIdx : Nat → String → BKey
| 0, _ => .shift
| 1, _ => .control
| 2, _ => .alt
| 3, _ => .superKey
| 4, _ => .hyper
| 5, _ => .metaKey
| 6, _ => .altGraph
| 7, s => .character s
| 8, _ => .backspace
| 9, _ => .enter
| 10, _ => .arrowLeft
| 11, _ => .arrowRight
| 12, _ => .arrowUp
| 13, _ => .arrowDown
| 14, _ => .home
| 15, _ => .endKey
| 16, _ => .pageUp
| 17, _ => .pageDown
| 18, _ => .tab
| 19, _ => .delete
| 20, _ => .insert
| 21, _ => .f1
| 22, _ => .f2
| 23, _ => .f3
| 24, _ => .f4
| 25, _ => .f5
| 26, _ => .f6
| 27, _ => .f7
| 28, _ => .f8
| 29, _ => .f9
| 30, _ => .f10
| 31, _ => .f11
| 32, _ => .f12
| 33, _ => .f13
| 34, _ => .f14
| 35, _ => .f15
| 36, _ => .f16
| 37, _ => .f17
| 38, _ => .f18
| 39, _ => .f19
| 40, _ => .f20
| 41, _ => .f31
| 42, _ => .f32
| 43, _ => .f33
| 44, _ => .f34
| 45, _ => .f35
| 46, _ => .escape
| 47, _ => .capsLock
| 48, _ => .scrollLock
| 49, _ => .numLock
| 50, _ => .printScreen
| 51, _ => .pause
| 52, _ => .contextMenu
| 53, _ => .mediaPlay
| 54, _ => .mediaPlayPause
| 55, _ => .mediaStop
| 56, _ => .mediaFastForward
| 57, _ => .mediaRewind
| 58, _ => .mediaTrackNext
| 59, _ => .mediaTrackPrevious
| 60, _ => .mediaRecord
| 61, _ => .audioVolumeDown
| 62, _ => .audioVolumeUp
| _, _ => .audioVolumeMute

instance : DecidableEq BKey := fun a b =>
  decidable_of_iff (a.toIdx = b.toIdx ∧ a.str = b.str)
    ⟨fun h => by
      have ha : BKey.ofIdx a.toIdx a.str = a := by cases a <;> rfl
      have hb : BKey.ofIdx b.toIdx b.str = b := by cases b <;> rfl
      rw [← ha, ← hb, h.1, h.2],
     fun h => by cases h; exact ⟨rfl, rfl⟩⟩

/-- Bevy `Entity` identifiers, modelled as `Nat`. -/
abbrev Entity := Nat

/-- `bevy::input::keyboard::KeyboardInput`. -/
structure KeyboardInput where
  key_code : BKeyCode
  state : ButtonState
  window : Entity
  logical_key : BKey
deriving DecidableEq, Repr

/-- `crossterm_modifier_to_bevy_key` from `runner.rs`: maps a singleton
modifier flag to the bevy logical key (the source panics on any other
flag; iteration always yields singletons, so the domain is `ModFlag`). -/
def crossterm_modifier_to_bevy_key : ModFlag → BKey
| .shift => .shift
| .control => .control
| .alt => .alt
| .superKey => .superKey
| .hyperKey => .hyper
| .metaKey => .metaKey

/-- `modifier_to_bevy` from `runner.rs`: builds the synthetic
`KeyboardInput` for a modifier state change (the source panics on
non-modifier keys; here the domain is restricted to the six modifier
keys via `ModFlag`). -/
def modifier_to_bevy (flag : ModFlag) (state : ButtonState) (window : Entity) :
    KeyboardInput :=
  let modifier := crossterm_modifier_to_bevy_key flag
  let key_code : BKeyCode :=
    match flag with
    | .control => .controlLeft
    | .shift => .shiftLeft
    | .alt => .altLeft
    | .hyperKey => .hyper
    | .metaKey => .metaKey
    | .superKey => .superLeft
  { key_code := key_code, state := state, window := window, logical_key := modifier }

/-- Helper for the unshifted rows of `to_bevy_keycode` (empty extra mods). -/
def kcPlain (b : BKeyCode) : Option (BKeyCode × KeyModifiers) :=
  some (b, KeyModifiers.empty)

/-- Helper for the `mods |= SHIFT` rows of `to_bevy_keycode`. -/
def kcShift (b : BKeyCode) : Option (BKeyCode × KeyModifiers) :=
  some (b, KeyModifiers.shiftOnly)

/-- The `c::F(f)` arm of `to_bevy_key`. -/
def fKeyToBevyKey : Nat → Option BKey
| 1 => some .f1
| 2 => some .f2
| 3 => some .f3
| 4 => some .f4
| 5 => some .f5
| 6 => some .f6
| 7 => some .f7
| 8 => some .f8
| 9 => some .f9
| 10 => some .f10
| 11 => some .f11
| 12 => some .f12
| 13 => some .f13
| 14 => some .f14
| 15 => some .f15
| 16 => some .f16
| 17 => some .f17
| 18 => some .f18
| 19 => some .f19
| 20 => some .f20
| 31 => some .f31
| 32 => some .f32
| 33 => some .f33
| 34 => some .f34
| 35 => some .f35
| _ => none

/-- The `c::F(f)` arm of `to_bevy_keycode`. -/
def fKeyToBevy : Nat → Option BKeyCode
| 1 => some .f1
| 2 => some .f2
| 3 => some .f3
| 4 => some .f4
| 5 => some .f5
| 6 => some .f6
| 7 => some .f7
| 8 => some .f8
| 9 => some .f9
| 10 => some .f10
| 11 => some .f11
| 12 => some .f12
| 13 => some .f13
| 14 => some .f14
| 15 => some .f15
| 16 => some .f16
| 17 => some .f17
| 18 => some .f18
| 19 => some .f19
| 20 => some .f20
| 31 => some .f31
| 32 => some .f32
| 33 => some .f33
| 34 => some .f34
| 35 => some .f35
| _ => none

/-- The `c::Char(c)` arm of `to_bevy_keycode`: physical key plus the
SHIFT flag implied by a shifted character. -/
def charToBevyKeycode : Char → Option (BKeyCode × KeyModifiers)
| '!' => kcShift .digit1
| '@' => kcShift .digit2
| '#' => kcShift .digit3
| '$' => kcShift .digit4
| '%' => kcShift .digit5
| '^' => kcShift .digit6
| '&' => kcShift .digit7
| '*' => kcShift .digit8
| '(' => kcShift .digit9
| ')' => kcShift .digit0
| '-' => kcShift .minus
| '[' => kcPlain .bracketLeft
| ']' => kcPlain .bracketRight
| '\x7b' => kcShift .bracketLeft
| '\x7d' => kcShift .bracketRight
| ',' => kcPlain .comma
| '=' => kcPlain .equal
| '<' => kcShift .comma
| '+' => kcShift .equal
| '.' => kcPlain .period
| '>' => kcShift .period
| '\'' => kcPlain .quote
| '"' => kcShift .quote
| ';' => kcPlain .semicolon
| ':' => kcShift .semicolon
| '/' => kcPlain .slash
| '?' => kcShift .slash
| ' ' => kcPlain .space
| '1' => kcPlain .digit1
| '2' => kcPlain .digit2
| '3' => kcPlain .digit3
| '4' => kcPlain .digit4
| '5' => kcPlain .digit5
| '6' => kcPlain .digit6
| '7' => kcPlain .digit7
| '8' => kcPlain .digit8
| '9' => kcPlain .digit9
| '0' => kcPlain .digit0
| 'a' => kcPlain .keyA
| 'b' => kcPlain .keyB
| 'c' => kcPlain .keyC
| 'd' => kcPlain .keyD
| 'e' => kcPlain .keyE
| 'f' => kcPlain .keyF
| 'g' => kcPlain .keyG
| 'h' => kcPlain .keyH
| 'i' => kcPlain .keyI
| 'j' => kcPlain .keyJ
| 'k' => kcPlain .keyK
| 'l' => kcPlain .keyL
| 'm' => kcPlain .keyM
| 'n' => kcPlain .keyN
| 'o' => kcPlain .keyO
| 'p' => kcPlain .keyP
| 'q' => kcPlain .keyQ
| 'r' => kcPlain .keyR
| 's' => kcPlain .keyS
| 't' => kcPlain .keyT
| 'u' => kcPlain .keyU
| 'v' => kcPlain .keyV
| 'w' => kcPlain .keyW
| 'x' => kcPlain .keyX
| 'y' => kcPlain .keyY
| 'z' => kcPlain .keyZ
| 'A' => kcShift .keyA
| 'B' => kcShift .keyB
| 'C' => kcShift .keyC
| 'D' => kcShift .keyD
| 'E' => kcShift .keyE
| 'F' => kcShift .keyF
| 'G' => kcShift .keyG
| 'H' => kcShift .keyH
| 'I' => kcShift .keyI
| 'J' => kcShift .keyJ
| 'K' => kcShift .keyK
| 'L' => kcShift .keyL
| 'M' => kcShift .keyM
| 'N' => kcShift .keyN
| 'O' => kcShift .keyO
| 'P' => kcShift .keyP
| 'Q' => kcShift .keyQ
| 'R' => kcShift .keyR
| 'S' => kcShift .keyS
| 'T' => kcShift .keyT
| 'U' => kcShift .keyU
| 'V' => kcShift .keyV
| 'W' => kcShift .keyW
| 'X' => kcShift .keyX
| 'Y' => kcShift .keyY
| 'Z' => kcShift .keyZ
| _ => none

/-- `to_bevy_keycode` from `runner.rs`: crossterm key code to bevy
physical key code plus implied extra modifiers. -/
def to_bevy_keycode : CKeyCode → Option (BKeyCode × KeyModifiers)
| .backspace => kcPlain .backspace
| .enter => kcPlain .enter
| .left => kcPlain .arrowLeft
| .right => kcPlain .arrowRight
| .up => kcPlain .arrowUp
| .down => kcPlain .arrowDown
| .home => kcPlain .home
| .endKey => kcPlain .endKey
| .pageUp => kcPlain .pageUp
| .pageDown => kcPlain .pageDown
| .tab => kcPlain .tab
| .backTab => none
| .delete => kcPlain .delete
| .insert => kcPlain .insert
| .f n => (fKeyToBevy n).map (fun b => (b, KeyModifiers.empty))
| .char c => charToBevyKeycode c
| .null => none
| .esc => kcPlain .escape
| .capsLock => kcPlain .capsLock
| .scrollLock => kcPlain .scrollLock
| .numLock => kcPlain .numLock
| .printScreen => kcPlain .printScreen
| .pause => kcPlain .pause
| .menu => kcPlain .contextMenu
| .keypadBegin => none
| .media m =>
  (match m with
   | .play => some BKeyCode.mediaPlayPause
   | .pause => some BKeyCode.pause
   | .playPause => some BKeyCode.mediaPlayPause
   | .reverse => none
   | .stop => some BKeyCode.mediaStop
   | .fastForward => some BKeyCode.mediaTrackNext
   | .rewind => some BKeyCode.mediaTrackPrevious
   | .trackNext => some BKeyCode.mediaTrackNext
   | .trackPrevious => some BKeyCode.mediaTrackPrevious
   | .record => none
   | .lowerVolume => some BKeyCode.audioVolumeDown
   | .raiseVolume => some BKeyCode.audioVolumeUp
   | .muteVolume => some BKeyCode.audioVolumeMute).map
    (fun b => (b, KeyModifiers.empty))
| .modifier m =>
  (match m with
   | .leftShift => some BKeyCode.shiftLeft
   | .leftControl => some BKeyCode.controlLeft
   | .leftAlt => some BKeyCode.altLeft
   | .leftSuper => some BKeyCode.superLeft
   | .leftHyper => some BKeyCode.hyper
   | .leftMeta => some BKeyCode.metaKey
   | .rightShift => some BKeyCode.shiftRight
   | .rightControl => some BKeyCode.controlRight
   | .rightAlt => some BKeyCode.altRight
   | .rightSuper => some BKeyCode.superRight
   | .rightHyper => some BKeyCode.hyper
   | .rightMeta => some BKeyCode.metaKey
   | .isoLevel3Shift => none
   | .isoLevel5Shift => none).map
    (fun b => (b, KeyModifiers.empty))

/-- `to_bevy_key` from `runner.rs`: crossterm key code to bevy logical key. -/
def to_bevy_key : CKeyCode → Option BKey
| .backspace => some .backspace
| .enter => some .enter
| .left => some .arrowLeft
| .right => some .arrowRight
| .up => some .arrowUp
| .down => some .arrowDown
| .home => some .home
| .endKey => some .endKey
| .pageUp => some .pageUp
| .pageDown => some .pageDown
| .tab => some .tab
| .backTab => none
| .delete => some .delete
| .insert => some .insert
| .f n => fKeyToBevyKey n
| .char c => some (.character (String.singleton c))
| .null => none
| .esc => some .escape
| .capsLock => some .capsLock
| .scrollLock => some .scrollLock
| .numLock => some .numLock
| .printScreen => some .printScreen
| .pause => some .pause
| .menu => some .contextMenu
| .keypadBegin => none
| .media m =>
  match m with
  | .play => some .mediaPlay
  | .pause => some .pause
  | .playPause => some .mediaPlayPause
  | .reverse => none
  | .stop => some .mediaStop
  | .fastForward => some .mediaFastForward
  | .rewind => some .mediaRewind
  | .trackNext => some .mediaTrackNext
  | .trackPrevious => some .mediaTrackPrevious
  | .record => some .mediaRecord
  | .lowerVolume => some .audioVolumeDown
  | .raiseVolume => some .audioVolumeUp
  | .muteVolume => some .audioVolumeMute
| .modifier m =>
  match m with
  | .leftShift => some .shift
  | .leftControl => some .control
  | .leftAlt => some .alt
  | .leftSuper => some .superKey
  | .leftHyper => some .hyper
  | .leftMeta => some .metaKey
  | .rightShift => some .shift
  | .rightControl => some .control
  | .rightAlt => some .alt
  | .rightSuper => some .superKey
  | .rightHyper => some .hyper
  | .rightMeta => some .metaKey
  | .isoLevel3Shift => some .altGraph
  | .isoLevel5Shift => none

/-- `KeyModifiers` union (the `*modifiers | mods` in `key_event_to_bevy`). -/
def KeyModifiers.union (a b : KeyModifiers) : KeyModifiers :=
  ⟨a.shift || b.shift, a.control || b.control, a.alt || b.alt,
   a.superKey || b.superKey, a.hyperKey || b.hyperKey, a.metaKey || b.metaKey⟩

/-- `key_event_to_bevy` from `runner.rs`: translates a crossterm key
event to a bevy `KeyboardInput` plus the effective modifier set. -/
def key_event_to_bevy (key_event : KeyEvent) (window : Entity) :
    Option (KeyboardInput × KeyModifiers) :=
  let state : ButtonState :=
    match key_event.kind with
    | .press => .pressed
    | .repeat => .pressed
    | .release => .released
  let key_code := to_bevy_keycode key_event.code
  let logical_key := to_bevy_key key_event.code
  match key_code, logical_key with
  | some (kc, mods), some lk =>
    some ({ key_code := kc, state := state, window := window, logical_key := lk },
          key_event.modifiers.union mods)
  | _, _ => none

/-- `crossterm::event::MouseEvent`: republished untouched by the runner,
so its payload is abstract here. -/
structure MouseEvent where
  kindCode : Nat
  column : Nat
  row : Nat
deriving DecidableEq, Repr

/-- `crossterm::event::Event`: the native terminal events drained each
tick.  Resize carries the new `(width, height)` as `u16` values
(modelled as `Nat`; the `u16 → f32` conversion in the resize arm is
exact since every `u16` is below `2^24`). -/
inductive CEvent
| key (ke : KeyEvent)
| mouse (me : MouseEvent)
| resize (width height : Nat)
| focusGained
| focusLost
| paste (s : String)
deriving DecidableEq, Repr

/-- Events the runner sends into the bevy world (`world.send_event`). -/
inductive SentEvent
| appExit
| keyboardInput (ki : KeyboardInput)
| keyEventWrapper (ke : KeyEvent)
| mouseEventWrapper (me : MouseEvent)
| windowResized (window : Entity) (width height : Nat)
| windowCreated (window : Entity)
| windowFocused (window : Entity) (focused : Bool)
deriving DecidableEq, Repr

/-- The modifier-delta loop in the `Event::Key` arm of
`crossterm_events`: for each flag in the symmetric difference of the new
and old modifier sets, emit a synthetic pressed/released modifier key. -/
def modifierDeltaEvents (mods old : KeyModifiers) (window : Entity) :
    List SentEvent :=
  (mods.symmetricDifference old).flags.map (fun flag =>
    let state : ButtonState := if mods.hasFlag flag then .pressed else .released
    .keyboardInput (modifier_to_bevy flag state window))

/-- The `Event::Key` arm of `crossterm_events`: Ctrl-C sends `AppExit`;
then the translated key event is sent, preceded by synthetic modifier
transitions when the effective modifier set changed; finally the raw
event is republished in its wrapper.  Returns the sent events and the
updated persisted modifier set. -/
def processKeyEvent (key_event : KeyEvent) (modifiers : KeyModifiers)
    (bevy_window : Entity) : List SentEvent × KeyModifiers :=
  let exitSends : List SentEvent :=
    if key_event.code = CKeyCode.char 'c' ∧ key_event.modifiers.control = true then
      [.appExit]
    else []
  match key_event_to_bevy key_event bevy_window with
  | some (bevy_event, mods) =>
    if mods ≠ modifiers then
      (exitSends ++ modifierDeltaEvents mods modifiers bevy_window ++
        [.keyboardInput bevy_event, .keyEventWrapper key_event], mods)
    else
      (exitSends ++ [.keyboardInput bevy_event, .keyEventWrapper key_event], modifiers)
  | none =>
    (exitSends ++ [.keyEventWrapper key_event], modifiers)

/-- One iteration body of the drain loop in `crossterm_events`:
dispatch one native event, producing sent events and the updated
window component and modifier set. -/
def processEvent (ev : CEvent) (window : CrosstermWindow)
    (modifiers : KeyModifiers) (bevy_window : Entity) :
    List SentEvent × CrosstermWindow × KeyModifiers :=
  match ev with
  | .key ke =>
    let (sends, mods) := processKeyEvent ke modifiers bevy_window
    (sends, window, mods)
  | .mouse me => ([.mouseEventWrapper me], window, modifiers)
  | .resize width height =>
    ([.windowResized bevy_window width height],
     { window with height := height, width := width }, modifiers)
  | .focusGained => ([.windowFocused bevy_window true], window, modifiers)
  | .focusLost => ([.windowFocused bevy_window false], window, modifiers)
  | .paste _ => ([], window, modifiers)

/-- One observation of the terminal input source during draining:
`poll(0)` may fail, may report no event, or may report an event whose
`read()` either yields the event or fails. -/
inductive DrainStep
| pollErr
| noEvent
| readOk (e : CEvent)
| readErr
deriving DecidableEq, Repr

/-- Marker for an unwinding panic (`expect`/`unwrap` failure). -/
inductive Panic
| panic
deriving DecidableEq, Repr

/-- `crossterm_events` from `runner.rs`: drain the currently buffered
native events.  The script lists the successive poll/read outcomes;
an exhausted script behaves like `poll` reporting no event (nothing is
buffered).  `Ok(false)` and `Err(_)` from `poll` both end the loop (the
`else break` and the `while let Ok` pattern); a failed `read()` is
`unwrap`ped, i.e. panics. -/
def crossterm_events (bevy_window : Entity) :
    List DrainStep → CrosstermWindow → KeyModifiers →
    Except Panic (List SentEvent × CrosstermWindow × KeyModifiers)
| [], window, modifiers => .ok ([], window, modifiers)
| .pollErr :: _, window, modifiers => .ok ([], window, modifiers)
| .noEvent :: _, window, modifiers => .ok ([], window, modifiers)
| .readErr :: _, _, _ => .error .panic
| .readOk e :: rest, window, modifiers =>
  let (sends, window1, modifiers1) := processEvent e window modifiers bevy_window
  match crossterm_events bevy_window rest window1 modifiers1 with
  | .ok (more, window2, modifiers2) => .ok (sends ++ more, window2, modifiers2)
  | .error p => .error p

/-- Terminal-state commands issued by the runner.  Raw-mode toggles take
effect immediately; the queued commands are recorded in issue order. -/
inductive TermCommand
| enableRawMode
| disableRawMode
| pushKeyboardEnhancementFlags
| popKeyboardEnhancementFlags
| enterAlternateScreen
| leaveAlternateScreen
| enableMouseCapture
| disableMouseCapture
| enableFocusChange
| disableFocusChange
| clearAll
| setTitle (t : String)
| setColors (c : Colors)
| showCursor
| flush
deriving DecidableEq, Repr

/-- Outcomes of the fallible crossterm calls made by
`CrosstermWindow::new`: each `expect` site gets a success flag, the
keyboard-enhancement probe returns `Result<bool>` (`none` models `Err`),
and the size query returns `Result<(u16, u16)>` (`none` models `Err`). -/
structure InitEnv where
  raw_mode_ok : Bool
  supports : Option Bool
  queue_kbd_ok : Bool
  queue_screen_ok : Bool
  queue_title_ok : Bool
  queue_colors_ok : Bool
  flush_ok : Bool
  size : Option (Nat × Nat)
deriving DecidableEq, Repr

/-- The `supports_keyboard_enhancement` probe result as `new` computes
it: `matches!(supports_keyboard_enhancement(), Ok(true))`. -/
def InitEnv.ske (env : InitEnv) : Bool :=
  match env.supports with | some true => true | _ => false

/-- Whether every initialization step used for the given settings
succeeds (the keyboard-enhancement queue matters only when the probe
said `Ok(true)`; the title queue only when a title is set). -/
def InitEnv.okFor (env : InitEnv) (settings : CrosstermWindowSettings) : Bool :=
  env.raw_mode_ok &&
  (if env.ske then env.queue_kbd_ok else true) &&
  env.queue_screen_ok &&
  (match settings.title with
   | some _ => env.queue_title_ok
   | none => true) &&
  env.queue_colors_ok &&
  env.flush_ok &&
  env.size.isSome

/-- `CrosstermWindow::new` from `runner.rs`: enable raw mode, queue
keyboard-enhancement push (when supported), alternate screen, mouse
capture, focus change and clear, optionally the title, then the window
colors; flush; read the terminal size.  Every failure is an `expect`,
i.e. a panic: the error value carries the commands issued before the
panic (the window value is never constructed on that path, so its
`Drop` cannot run). -/
def CrosstermWindow.new (settings : CrosstermWindowSettings) (env : InitEnv) :
    Except (List TermCommand) (CrosstermWindow × List TermCommand) :=
  if env.raw_mode_ok = false then .error []
  else
    let t0 : List TermCommand := [.enableRawMode]
    let ske : Bool := env.ske
    match (if ske then (if env.queue_kbd_ok then
            Except.ok (t0 ++ [TermCommand.pushKeyboardEnhancementFlags])
          else Except.error t0)
        else Except.ok t0 : Except (List TermCommand) (List TermCommand)) with
    | .error t => .error t
    | .ok t1 =>
      if env.queue_screen_ok = false then .error t1
      else
        let t2 := t1 ++ [TermCommand.enterAlternateScreen,
          TermCommand.enableMouseCapture, TermCommand.enableFocusChange,
          TermCommand.clearAll]
        match (match settings.title with
            | some title =>
              if env.queue_title_ok then Except.ok (t2 ++ [TermCommand.setTitle title])
              else Except.error t2
            | none => Except.ok t2 : Except (List TermCommand) (List TermCommand)) with
        | .error t => .error t
        | .ok t3 =>
          if env.queue_colors_ok = false then .error t3
          else
            let t4 := t3 ++ [TermCommand.setColors settings.colors]
            if env.flush_ok = false then .error t4
            else
              let t5 := t4 ++ [TermCommand.flush]
              match env.size with
              | none => .error t5
              | some (width, height) =>
                .ok ({ height := height, width := width,
                       colors := settings.colors, title := settings.title,
                       supports_keyboard_enhancement := ske }, t5)

/-- `Drop for CrosstermWindow` from `runner.rs`: pop the
keyboard-enhancement flags when they were pushed, disable mouse capture
and focus-change reporting, show the cursor, flush, and disable raw
mode.  Runs whenever the window value is dropped — on clean return and
during an unwinding panic alike. -/
def CrosstermWindow.dropTeardown (w : CrosstermWindow) : List TermCommand :=
  (if w.supports_keyboard_enhancement then
    [TermCommand.popKeyboardEnhancementFlags]
  else []) ++
  [.disableMouseCapture, .disableFocusChange, .showCursor, .flush, .disableRawMode]

/-- Behavior of one tick's environment: the buffered input, whether the
host's `app.update()` panics, and whether it raises `AppExit`. -/
structure TickScript where
  input : List DrainStep
  hostPanics : Bool
  hostExits : Bool
deriving DecidableEq, Repr

/-- State threaded through the run loop: the tracked window component
and the persisted modifier set (`runner.rs` line 109). -/
structure LoopState where
  window : CrosstermWindow
  modifiers : KeyModifiers
deriving DecidableEq, Repr

/-- Result of one `tick`: a panic while draining (before `app.update()`),
a panic inside `app.update()`, or a completed tick whose exit flag says
whether an `AppExit` event was observed after the update. -/
inductive TickRes
| panickedInDrain
| panickedInUpdate (sends : List SentEvent) (st : LoopState)
| ok (sends : List SentEvent) (st : LoopState) (exit : Bool)
deriving DecidableEq, Repr

/-- `tick` from `runner.rs`: drain events, run `app.update()`, then read
`Events<AppExit>` with a fresh reader; `Err(AppExit)` ends the loop.
The events store is modelled per tick: an exit is pending when the host
raised one during the update or a drained Ctrl-C sent one (earlier
ticks' events cannot linger, since the loop stops at the first one). -/
def tick (bevy_window : Entity) (ts : TickScript) (st : LoopState) : TickRes :=
  match crossterm_events bevy_window ts.input st.window st.modifiers with
  | .error _ => .panickedInDrain
  | .ok (sends, window1, modifiers1) =>
    let st1 : LoopState := ⟨window1, modifiers1⟩
    if ts.hostPanics then .panickedInUpdate sends st1
    else
      let exitRaised := ts.hostExits || sends.contains SentEvent.appExit
      .ok sends st1 exitRaised

/-- How a run of the loop ended: a tick returned `Err(AppExit)` (clean),
a panic unwound out of a tick, or the script ran out while the loop was
still going. -/
inductive ExitPath
| clean
| panicked
| running
deriving DecidableEq, Repr

/-- Accumulated result of the `while tick(..).is_ok()` loop. -/
structure LoopResult where
  state : LoopState
  updates : Nat
  ticks : Nat
  path : ExitPath
  sends : List SentEvent
deriving DecidableEq, Repr

/-- The `RunMode::Loop` body of `crossterm_runner`: run ticks until one
returns `Err(AppExit)` or panics.  `updates` counts host updates that
ran to completion; `ticks` counts started ticks. -/
def runLoop (bevy_window : Entity) : List TickScript → LoopState → LoopResult
| [], st => ⟨st, 0, 0, .running, []⟩
| ts :: rest, st =>
  match tick bevy_window ts st with
  | .panickedInDrain => ⟨st, 0, 1, .panicked, []⟩
  | .panickedInUpdate sends st1 => ⟨st1, 0, 1, .panicked, sends⟩
  | .ok sends st1 exitRaised =>
    if exitRaised then ⟨st1, 1, 1, .clean, sends⟩
    else
      let r := runLoop bevy_window rest st1
      ⟨r.state, r.updates + 1, r.ticks + 1, r.path, sends ++ r.sends⟩

/-- `bevy::app::RunMode`. -/
inductive RunMode
| once
| loopMode
deriving DecidableEq, Repr

/-- Observable outcome of a whole program run: the terminal-command
trace, how the run ended, how many host updates completed, how many
ticks started, and the events sent to the world. -/
structure RunOutcome where
  trace : List TermCommand
  path : ExitPath
  updates : Nat
  ticks : Nat
  sends : List SentEvent
deriving DecidableEq, Repr

/-- `crossterm_runner` from `runner.rs` (plus `setup_window`): construct
the window (panicking on any init failure, before the window value
exists), publish `WindowCreated`, then either run `app.update()` once
(`RunMode::Once`) or loop over ticks; on clean loop exit execute
`LeaveAlternateScreen`; finally the app is dropped — also during an
unwinding panic — which drops the window component and runs its
teardown. -/
def crossterm_runner (settings : CrosstermWindowSettings) (env : InitEnv)
    (mode : RunMode) (script : List TickScript) (bevy_window : Entity) :
    RunOutcome :=
  match CrosstermWindow.new settings env with
  | .error t => ⟨t, .panicked, 0, 0, []⟩
  | .ok (w, initTrace) =>
    let sends0 : List SentEvent := [.windowCreated bevy_window]
    match mode with
    | .once =>
      match script with
      | ts :: _ =>
        if ts.hostPanics then
          ⟨initTrace ++ w.dropTeardown, .panicked, 0, 1, sends0⟩
        else ⟨initTrace ++ w.dropTeardown, .clean, 1, 1, sends0⟩
      | [] => ⟨initTrace ++ w.dropTeardown, .clean, 1, 1, sends0⟩
    | .loopMode =>
      let r := runLoop bevy_window script ⟨w, KeyModifiers.empty⟩
      match r.path with
      | .clean =>
        ⟨initTrace ++ [TermCommand.leaveAlternateScreen] ++
          r.state.window.dropTeardown, .clean, r.updates, r.ticks,
         sends0 ++ r.sends⟩
      | .panicked =>
        ⟨initTrace ++ r.state.window.dropTeardown, .panicked, r.updates,
         r.ticks, sends0 ++ r.sends⟩
      | .running => ⟨initTrace, .running, r.updates, r.ticks, sends0 ++ r.sends⟩

/-- Modelled from the spec: `Sprite` (from the missing `components.rs`)
is an immutable ordered sequence of text rows with no implicit padding. -/
structure Sprite where
  rows : List String
deriving DecidableEq, Repr

/-- Modelled from the spec: `Sprite::new` builds the row grid from the
decoded text; rows are the newline-separated lines. -/
def Sprite.new (s : String) : Sprite := ⟨s.splitOn "\n"⟩

/-- Modelled from the spec: `width` = max row length. -/
def Sprite.width (sp : Sprite) : Nat := (sp.rows.map String.length).foldr max 0

/-- Modelled from the spec: `height` = row count. -/
def Sprite.height (sp : Sprite) : Nat := sp.rows.length

/-- Whether a byte is a UTF-8 continuation byte (`0x80..=0xBF`). -/
def contByte (b : Nat) : Bool := 128 ≤ b && b ≤ 191

/-- UTF-8 decoding of a byte list (bytes as `Nat`), following the
validation `std::str::from_utf8` performs: overlong encodings,
surrogates and values above `0x10FFFF` are rejected. -/
def utf8Chars : List Nat → Option (List Char)
| [] => some []
| b0 :: rest =>
  if b0 ≤ 127 then
    (utf8Chars rest).map (fun cs => Char.ofNat b0 :: cs)
  else if 194 ≤ b0 && b0 ≤ 223 then
    match rest with
    | b1 :: rest1 =>
      if contByte b1 then
        (utf8Chars rest1).map (fun cs =>
          Char.ofNat ((b0 - 192) * 64 + (b1 - 128)) :: cs)
      else none
    | [] => none
  else if 224 ≤ b0 && b0 ≤ 239 then
    match rest with
    | b1 :: b2 :: rest2 =>
      if (if b0 = 224 then 160 ≤ b1 && b1 ≤ 191
          else if b0 = 237 then 128 ≤ b1 && b1 ≤ 159
          else contByte b1) && contByte b2 then
        (utf8Chars rest2).map (fun cs =>
          Char.ofNat ((b0 - 224) * 4096 + (b1 - 128) * 64 + (b2 - 128)) :: cs)
      else none
    | _ => none
  else if 240 ≤ b0 && b0 ≤ 244 then
    match rest with
    | b1 :: b2 :: b3 :: rest3 =>
      if (if b0 = 240 then 144 ≤ b1 && b1 ≤ 191
          else if b0 = 244 then 128 ≤ b1 && b1 ≤ 143
          else contByte b1) && contByte b2 && contByte b3 then
        (utf8Chars rest3).map (fun cs =>
          Char.ofNat ((b0 - 240) * 262144 + (b1 - 128) * 4096 +
            (b2 - 128) * 64 + (b3 - 128)) :: cs)
      else none
    | _ => none
  else none

/-- `std::str::from_utf8` over a byte list: the decoded string, or
`none` for invalid UTF-8. -/
def decodeUtf8 (bytes : List Nat) : Option String :=
  (utf8Chars bytes).map (fun cs => String.mk cs)

/-- The byte list of a string's UTF-8 encoding (for concrete witnesses). -/
def strBytes (s : String) : List Nat := s.toUTF8.toList.map UInt8.toNat

/-- `LoadSpriteError` from `asset_loaders.rs`. -/
inductive LoadSpriteError
| invalidUtf8
| io
deriving DecidableEq, Repr

/-- `SpriteLoader::load` from `asset_loaders.rs`: read all bytes (an IO
failure surfaces as `LoadSpriteError::Io` via `?`), decode them as
UTF-8 (failure surfaces as `LoadSpriteError::InvalidUtf8` via `?`), and
build the sprite with `Sprite::new`. -/
def SpriteLoader.load (readResult : Option (List Nat)) :
    Except LoadSpriteError Sprite :=
  match readResult with
  | none => .error .io
  | some bytes =>
    match decodeUtf8 bytes with
    | none => .error .invalidUtf8
    | some string => .ok (Sprite.new string)

/-- Modelled from the spec: a per-cell style `(foreground, background,
attributes)` (from the missing `components.rs`), fields abstract. -/
structure Style where
  foreground : Nat
  background : Nat
  attributes : Nat
deriving DecidableEq, Repr

/-- Modelled from the spec: `StyleMap` (from the missing
`components.rs`) is a sparse mapping from cell offset to style plus
default colors. -/
structure StyleMap where
  styles : List (Nat × Style)
  colors : Colors
deriving DecidableEq, Repr

/-- `LoadStyleMapError` from `asset_loaders.rs`. -/
inductive LoadStyleMapError
| deserialize
| io
deriving DecidableEq, Repr

/-- `StyleMapLoader::load` from `asset_loaders.rs`: read all bytes (an
IO failure surfaces as `LoadStyleMapError::Io`), then run the RON
deserializer (an opaque collaborator, passed as a function); a
deserialization failure surfaces as `LoadStyleMapError::Deserialize`
via `?`. -/
def StyleMapLoader.load (ron_from_bytes : List Nat → Except Unit StyleMap)
    (readResult : Option (List Nat)) : Except LoadStyleMapError StyleMap :=
  match readResult with
  | none => .error .io
  | some bytes =>
    match ron_from_bytes bytes with
    | .error _ => .error .deserialize
    | .ok stylemap => .ok stylemap

/-- Modelled from the spec: `Position` — `(x, y, z)` integers, `(x, y)`
the top-left of the sprite's bounding box. -/
structure Position where
  x : Int
  y : Int
  z : Int
deriving DecidableEq, Repr

/-- Modelled from the spec: `Visibility` — `solid` models `Opaque`,
`transparent` models `Transparent`. -/
inductive Visibility
| solid
| transparent
deriving DecidableEq, Repr

/-- Modelled from the spec: a scene entity with stable id, components,
and explicit per-field change versions (the spec's §9 reimplementation
of the host's change detection). -/
structure SceneEntity where
  id : Nat
  pos : Position
  sprite : Nat
  style : Nat
  visibility : Visibility
  posV : Nat
  spriteV : Nat
  styleV : Nat
deriving DecidableEq, Repr

/-- Modelled from the spec: a bounding rect — top-left corner plus
width/height in cells. -/
structure Rect where
  x : Int
  y : Int
  w : Nat
  h : Nat
deriving DecidableEq, Repr

/-- Rect intersection test (non-empty overlap of half-open boxes). -/
def Rect.intersects (a b : Rect) : Bool :=
  a.x < b.x + b.w && b.x < a.x + a.w && a.y < b.y + b.h && b.y < a.y + a.h

/-- Whether a rect has non-zero area (the spec skips zero-area sprites). -/
def Rect.hasArea (r : Rect) : Bool := 0 < r.w && 0 < r.h

/-- The bounding rect an entity occupies: its position plus the size the
asset store resolves for its sprite handle. -/
def SceneEntity.rect (assets : Nat → Nat × Nat) (e : SceneEntity) : Rect :=
  ⟨e.pos.x, e.pos.y, (assets e.sprite).1, (assets e.sprite).2⟩

/-- Modelled from the spec: `PreviousEntityDetails` entry — the
last-rendered bounding rect, sprite/style identity, and the versions
observed at the last render. -/
structure PrevDetails where
  rect : Rect
  sprite : Nat
  style : Nat
  posV : Nat
  spriteV : Nat
  styleV : Nat
deriving DecidableEq, Repr

/-- Modelled from the spec: the `PreviousEntityDetails` store, keyed by
entity id. -/
abbrev PreviousEntityDetails := List (Nat × PrevDetails)

/-- Whether an entity counts as changed this tick: newly spawned (no
previous entry) or any of its Position / Sprite-handle / StyleMap
versions or identities differs from the observed snapshot. -/
def SceneEntity.changed (assets : Nat → Nat × Nat)
    (prev : PreviousEntityDetails) (e : SceneEntity) : Bool :=
  match prev.lookup e.id with
  | none => true
  | some d =>
    d.posV != e.posV || d.spriteV != e.spriteV || d.styleV != e.styleV ||
    d.sprite != e.sprite || d.style != e.style || d.rect != e.rect assets

/-- Ids tracked in the previous store whose entity was removed since the
last frame. -/
def removedIds (scene : List SceneEntity) (prev : PreviousEntityDetails) :
    List Nat :=
  (prev.filter (fun p => !(scene.any (fun e => e.id == p.1)))).map Prod.fst

/-- The seed set of the damage engine: changed or newly spawned entities
with non-zero area, plus removed entities' ids. -/
def seedIds (assets : Nat → Nat × Nat) (scene : List SceneEntity)
    (prev : PreviousEntityDetails) : List Nat :=
  ((scene.filter (fun e =>
    SceneEntity.changed assets prev e && (e.rect assets).hasArea)).map
      SceneEntity.id) ++
  removedIds scene prev

/-- The dirty rects of an id popped from the worklist: its current rect
(when live) and its previous rect (when tracked) — the union footprint
that must repaint. -/
def dirtyRects (assets : Nat → Nat × Nat) (scene : List SceneEntity)
    (prev : PreviousEntityDetails) (i : Nat) : List Rect :=
  (match scene.find? (fun e => e.id == i) with
   | some e => [e.rect assets]
   | none => []) ++
  (match prev.lookup i with
   | some d => [d.rect]
   | none => [])

/-- Modelled from the spec: the fixed-point expansion of the damage set.
An explicit worklist; each popped id pulls in every live, non-zero-area
entity whose current rect intersects the popped id's dirty rect.  Fuel
bounds the iteration (each step either empties the worklist or adds
never-before-seen ids, so any sufficiently large fuel reaches the fixed
point). -/
def expand (assets : Nat → Nat × Nat) (scene : List SceneEntity)
    (prev : PreviousEntityDetails) :
    Nat → List Nat → List Nat → List Nat
| _, [], acc => acc
| 0, _ :: _, acc => acc
| fuel + 1, i :: ws, acc =>
  let dirty := dirtyRects assets scene prev i
  let newcomers := (scene.filter (fun e =>
    !(acc.contains e.id) && (e.rect assets).hasArea &&
    dirty.any (fun r => r.intersects (e.rect assets)))).map SceneEntity.id
  expand assets scene prev fuel (ws ++ newcomers) (acc ++ newcomers)

/-- Modelled from the spec: the `calculate_entities_to_redraw` system —
`EntitiesToRedraw` is cleared and recomputed as the expansion of the
seed set. -/
def calculate_entities_to_redraw (assets : Nat → Nat × Nat)
    (scene : List SceneEntity) (prev : PreviousEntityDetails) : List Nat :=
  let seed := seedIds assets scene prev
  expand assets scene prev
    ((scene.length + 1) * (scene.length + seed.length + 1)) seed seed

/-- Modelled from the spec: the `update_previous_position` system —
after the render pass, `PreviousEntityDetails` holds exactly the live
entities with their just-rendered rects and observed versions (removed
entities' entries are dropped after contributing their vacated rect
once). -/
def update_previous_position (assets : Nat → Nat × Nat)
    (scene : List SceneEntity) : PreviousEntityDetails :=
  scene.map (fun e =>
    (e.id, ⟨e.rect assets, e.sprite, e.style, e.posV, e.spriteV, e.styleV⟩))

/-- The render-pass state the spec names: the previous-frame store and
the transient per-frame redraw set. -/
structure RenderState where
  prev : PreviousEntityDetails
  toRedraw : List Nat
deriving DecidableEq, Repr

/-- Modelled from the spec: one render pass over an already-settled
scene — recompute `EntitiesToRedraw` from the previous store, then
snapshot the scene into `PreviousEntityDetails` for the next frame. -/
def renderPass (assets : Nat → Nat × Nat) (scene : List SceneEntity)
    (st : RenderState) : RenderState :=
  ⟨update_previous_position assets scene,
   calculate_entities_to_redraw assets scene st.prev⟩

/-- The native events the drain loop actually reads from a script: the
`readOk` prefix before the first poll failure, empty poll, or read
failure. -/
def drainedEvents : List DrainStep → List CEvent
| .readOk e :: rest => e :: drainedEvents rest
| _ => []

/-- Whether draining a script hits a failing `read()` (and hence
panics through `unwrap`). -/
def drainPanics : List DrainStep → Bool
| .readOk _ :: rest => drainPanics rest
| .readErr :: _ => true
| _ => false

/-- Sequential processing of a list of native events (the successful
drain loop, expressed over the events actually read). -/
def processEvents : List CEvent → CrosstermWindow → KeyModifiers → Entity →
    List SentEvent × CrosstermWindow × KeyModifiers
| [], window, modifiers, _ => ([], window, modifiers)
| e :: evs, window, modifiers, bevy_window =>
  let (sends, window1, modifiers1) := processEvent e window modifiers bevy_window
  let (more, window2, modifiers2) := processEvents evs window1 modifiers1 bevy_window
  (sends ++ more, window2, modifiers2)

/-- Whether a native event is the interrupt combination: a key event
whose code is the character `c` with CONTROL among its modifiers. -/
def CEvent.isCtrlC : CEvent → Bool
| .key ke => ke.code == CKeyCode.char 'c' && ke.modifiers.control
| _ => false

/-- Whether running a tick with this script panics (failed read while
draining, or a panic inside the host update). -/
def TickScript.panics (ts : TickScript) : Bool :=
  drainPanics ts.input || ts.hostPanics

/-- Whether a tick run with this script leaves an `AppExit` event in the
world: the host raised one during its update, or a drained Ctrl-C key
event sent one. -/
def TickScript.raisesExit (ts : TickScript) : Bool :=
  ts.hostExits || (drainedEvents ts.input).any CEvent.isCtrlC

/-- The window value `CrosstermWindow::new` returns on success (size
from the environment's answer, colors and title from the settings,
enhancement flag from the probe). -/
def windowFor (settings : CrosstermWindowSettings) (env : InitEnv) :
    CrosstermWindow :=
  let ske : Bool := env.ske
  match env.size with
  | some (width, height) =>
    ⟨height, width, settings.colors, settings.title, ske⟩
  | none => ⟨0, 0, settings.colors, settings.title, ske⟩

/-- The command trace `CrosstermWindow::new` issues on success. -/
def initTraceFor (settings : CrosstermWindowSettings) (env : InitEnv) :
    List TermCommand :=
  let ske : Bool := env.ske
  [.enableRawMode] ++
  (if ske then [TermCommand.pushKeyboardEnhancementFlags] else []) ++
  [.enterAlternateScreen, .enableMouseCapture, .enableFocusChange, .clearAll] ++
  (match settings.title with
   | some title => [TermCommand.setTitle title]
   | none => []) ++
  [.setColors settings.colors, .flush]

/-! ### Theorems -/

/-- C2: for every key event whose code is the character `c` and whose
modifier set contains CONTROL, processing that event sends an `AppExit`
event to the world, regardless of the key's kind, of the persisted
modifier state, and of how the translated event is otherwise handled. -/
theorem ctrl_c_sends_app_exit (ke : KeyEvent) (window : CrosstermWindow)
    (modifiers : KeyModifiers) (bevy_window : Entity)
    (hcode : ke.code = CKeyCode.char 'c') (hctl : ke.modifiers.control = true) :
    SentEvent.appExit ∈ (processEvent (.key ke) window modifiers bevy_window).1 := by
  unfold processEvent processKeyEvent
  rcases h : key_event_to_bevy ke bevy_window with _ | ⟨be, mods⟩
  · simp [h, hcode, hctl]
  · by_cases hm : mods ≠ modifiers
    · simp [h, hm, hcode, hctl]
    · simp [h, hm, hcode, hctl]

/-- Witness for `ctrl_c_sends_app_exit` at a concrete Ctrl-C press. -/
theorem ctrl_c_sends_app_exit_witness :
    SentEvent.appExit ∈
      (processEvent
        (.key ⟨.char 'c', ⟨false, true, false, false, false, false⟩, .press⟩)
        ⟨24, 80, ⟨0, 0⟩, none, false⟩ KeyModifiers.empty 7).1 :=
  ctrl_c_sends_app_exit
    ⟨.char 'c', ⟨false, true, false, false, false, false⟩, .press⟩
    ⟨24, 80, ⟨0, 0⟩, none, false⟩ KeyModifiers.empty 7 rfl rfl

/-- C10: a bracketed-paste event drained from the terminal sends no
event to the world and leaves the tracked window and modifier state
unchanged. -/
theorem paste_discarded (s : String) (window : CrosstermWindow)
    (modifiers : KeyModifiers) (bevy_window : Entity) :
    processEvent (.paste s) window modifiers bevy_window =
      ([], window, modifiers) := rfl

/-- C8: a terminal resize event with `(width, height)` publishes a
`WindowResized` event with exactly those dimensions and sets the
tracked window's `width`/`height` fields to them, leaving the window's
`colors` and `title` fields unchanged. -/
theorem resize_updates_window (width height : Nat) (window : CrosstermWindow)
    (modifiers : KeyModifiers) (bevy_window : Entity) :
    processEvent (.resize width height) window modifiers bevy_window =
      ([SentEvent.windowResized bevy_window width height],
       { window with width := width, height := height }, modifiers) ∧
    ((processEvent (.resize width height) window modifiers bevy_window).2.1).colors
        = window.colors ∧
    ((processEvent (.resize width height) window modifiers bevy_window).2.1).title
        = window.title ∧
    ((processEvent (.resize width height) window modifiers bevy_window).2.1).width
        = width ∧
    ((processEvent (.resize width height) window modifiers bevy_window).2.1).height
        = height :=
  ⟨rfl, rfl, rfl, rfl, rfl⟩

/-- C9: asset decoding returns typed errors — sprite bytes that are not
valid UTF-8 yield `LoadSpriteError::InvalidUtf8`, every valid UTF-8
input succeeds with `Sprite::new` of the decoded string, and a style
document the RON deserializer rejects yields
`LoadStyleMapError::Deserialize`. -/
theorem asset_load_typed_errors :
    (∀ bytes : List Nat, decodeUtf8 bytes = none →
      SpriteLoader.load (some bytes) = .error .invalidUtf8) ∧
    (∀ (bytes : List Nat) (s : String), decodeUtf8 bytes = some s →
      SpriteLoader.load (some bytes) = .ok (Sprite.new s)) ∧
    (∀ (ron_from_bytes : List Nat → Except Unit StyleMap) (bytes : List Nat),
      ron_from_bytes bytes = .error () →
      StyleMapLoader.load ron_from_bytes (some bytes) = .error .deserialize) ∧
    (∀ (ron_from_bytes : List Nat → Except Unit StyleMap)
       (bytes : List Nat) (sm : StyleMap),
      ron_from_bytes bytes = .ok sm →
      StyleMapLoader.load ron_from_bytes (some bytes) = .ok sm) := by
  refine ⟨fun bytes h => ?_, fun bytes s h => ?_, fun pf bytes h => ?_,
    fun pf bytes sm h => ?_⟩
  · simp [SpriteLoader.load, h]
  · simp [SpriteLoader.load, h]
  · simp [StyleMapLoader.load, h]
  · simp [StyleMapLoader.load, h]

/-- Witness for `asset_load_typed_errors`: the byte `0xFF` is invalid
UTF-8 and surfaces as `InvalidUtf8`; the bytes `[97, 98, 10, 99, 100]`
decode to "ab\ncd" and produce the sprite; a failing parser surfaces as
`Deserialize`. -/
theorem asset_load_typed_errors_witness :
    SpriteLoader.load (some [255]) = .error .invalidUtf8 ∧
    SpriteLoader.load (some [97, 98, 10, 99, 100]) =
      .ok (Sprite.new "ab\ncd") ∧
    StyleMapLoader.load (fun _ => .error ()) (some [1, 2]) =
      .error .deserialize :=
  ⟨asset_load_typed_errors.1 [255] (by decide),
   asset_load_typed_errors.2.1 [97, 98, 10, 99, 100] "ab\ncd" (by decide),
   asset_load_typed_errors.2.2.1 (fun _ => .error ()) [1, 2] rfl⟩

/-- Draining a script with no failing read succeeds and processes
exactly the events read before the loop's first unavailable poll. -/
theorem crossterm_events_eq_processEvents (bevy_window : Entity)
    (input : List DrainStep) (window : CrosstermWindow)
    (modifiers : KeyModifiers) (h : drainPanics input = false) :
    crossterm_events bevy_window input window modifiers =
      .ok (processEvents (drainedEvents input) window modifiers bevy_window) := by
  induction input generalizing window modifiers with
  | nil => rfl
  | cons step rest ih =>
    cases step with
    | pollErr => rfl
    | noEvent => rfl
    | readErr => simp [drainPanics] at h
    | readOk e =>
      simp only [drainPanics] at h
      simp only [crossterm_events, drainedEvents, processEvents, ih _ _ h]

/-- Draining a script whose read fails panics. -/
theorem crossterm_events_panics (bevy_window : Entity)
    (input : List DrainStep) (window : CrosstermWindow)
    (modifiers : KeyModifiers) (h : drainPanics input = true) :
    crossterm_events bevy_window input window modifiers = .error .panic := by
  induction input generalizing window modifiers with
  | nil => simp [drainPanics] at h
  | cons step rest ih =>
    cases step with
    | pollErr => simp [drainPanics] at h
    | noEvent => simp [drainPanics] at h
    | readErr => rfl
    | readOk e =>
      simp only [drainPanics] at h
      simp only [crossterm_events, ih _ _ h]

/-- Synthetic modifier-transition events are always `KeyboardInput`
events, never `AppExit`. -/
theorem appExit_not_mem_modifierDeltaEvents (mods old : KeyModifiers)
    (bevy_window : Entity) :
    SentEvent.appExit ∉ modifierDeltaEvents mods old bevy_window := by
  simp [modifierDeltaEvents]

/-- Processing one native event sends an `AppExit` exactly when the
event is the Ctrl-C interrupt combination. -/
theorem processEvent_appExit (e : CEvent) (window : CrosstermWindow)
    (modifiers : KeyModifiers) (bevy_window : Entity) :
    ((processEvent e window modifiers bevy_window).1.contains SentEvent.appExit)
      = e.isCtrlC := by
  cases e with
  | key ke =>
    unfold processEvent processKeyEvent CEvent.isCtrlC
    rcases h : key_event_to_bevy ke bevy_window with _ | ⟨be, mods⟩ <;>
      by_cases h1 : ke.code = CKeyCode.char 'c' <;>
      by_cases h2 : ke.modifiers.control = true
    · simp [h, h1, h2]
    · simp [h, h1, h2]
    · simp [h, h1, h2]
    · simp [h, h1, h2]
    · by_cases hm : mods ≠ modifiers <;>
        simp [h, hm, h1, h2, appExit_not_mem_modifierDeltaEvents]
    · by_cases hm : mods ≠ modifiers <;>
        simp [h, hm, h1, h2, appExit_not_mem_modifierDeltaEvents]
    · by_cases hm : mods ≠ modifiers <;>
        simp [h, hm, h1, h2, appExit_not_mem_modifierDeltaEvents]
    · by_cases hm : mods ≠ modifiers <;>
        simp [h, hm, h1, h2, appExit_not_mem_modifierDeltaEvents]
  | mouse me => rfl
  | resize width height => rfl
  | focusGained => rfl
  | focusLost => rfl
  | paste s => rfl

/-- `List.contains` distributes over append (specialised to sent events). -/
theorem contains_append_sentEvent (l1 l2 : List SentEvent) (a : SentEvent) :
    (l1 ++ l2).contains a = (l1.contains a || l2.contains a) := by
  simp

/-- Processing a list of native events sends an `AppExit` exactly when
some event in it is the Ctrl-C interrupt combination. -/
theorem processEvents_appExit (evs : List CEvent) (window : CrosstermWindow)
    (modifiers : KeyModifiers) (bevy_window : Entity) :
    ((processEvents evs window modifiers bevy_window).1.contains SentEvent.appExit)
      = evs.any CEvent.isCtrlC := by
  induction evs generalizing window modifiers with
  | nil => rfl
  | cons e evs ih =>
    simp only [processEvents, List.any_cons]
    rw [contains_append_sentEvent, processEvent_appExit, ih]

/-- Read steps contribute no drain panic: a script that starts with a
block of successful reads panics exactly when its remainder does. -/
theorem drainPanics_append_readOk (evs : List CEvent) (rest : List DrainStep) :
    drainPanics (evs.map DrainStep.readOk ++ rest) = drainPanics rest := by
  induction evs with
  | nil => rfl
  | cons e evs ih => simpa [drainPanics] using ih

/-- The events drained from a script that starts with a block of
successful reads are that block followed by whatever the remainder
drains. -/
theorem drainedEvents_append_readOk (evs : List CEvent) (rest : List DrainStep) :
    drainedEvents (evs.map DrainStep.readOk ++ rest) =
      evs ++ drainedEvents rest := by
  induction evs with
  | nil => rfl
  | cons e evs ih => simpa [drainedEvents] using ih

/-- C4: the event drain reads and republishes every event currently
buffered, in order, and stops at the first poll that reports no event —
steps after it are never touched; a tick built from such a buffer
completes its drain before the host update and reports the Ctrl-C exit
flag accordingly. -/
theorem drain_reads_buffer_until_empty (bevy_window : Entity)
    (evs : List CEvent) (junk : List DrainStep) (window : CrosstermWindow)
    (modifiers : KeyModifiers) :
    crossterm_events bevy_window (evs.map DrainStep.readOk ++ .noEvent :: junk)
        window modifiers =
      .ok (processEvents evs window modifiers bevy_window) ∧
    crossterm_events bevy_window (evs.map DrainStep.readOk) window modifiers =
      .ok (processEvents evs window modifiers bevy_window) := by
  constructor
  · rw [crossterm_events_eq_processEvents _ _ _ _
      (by rw [drainPanics_append_readOk]; rfl)]
    rw [drainedEvents_append_readOk]
    simp [drainedEvents]
  · rw [crossterm_events_eq_processEvents _ _ _ _
      (by rw [show evs.map DrainStep.readOk =
          evs.map DrainStep.readOk ++ [] from (List.append_nil _).symm,
        drainPanics_append_readOk]; rfl)]
    rw [show evs.map DrainStep.readOk =
        evs.map DrainStep.readOk ++ [] from (List.append_nil _).symm,
      drainedEvents_append_readOk]
    simp [drainedEvents]

/-- When every initialization step succeeds, `CrosstermWindow::new`
returns the expected window with the expected command trace. -/
theorem new_ok_of_okFor (settings : CrosstermWindowSettings) (env : InitEnv)
    (h : env.okFor settings = true) :
    CrosstermWindow.new settings env =
      .ok (windowFor settings env, initTraceFor settings env) := by
  obtain ⟨rmo, sup, qk, qs, qt, qc, fo, sz⟩ := env
  obtain ⟨cols, title⟩ := settings
  simp only [InitEnv.okFor, Bool.and_eq_true] at h
  obtain ⟨⟨⟨⟨⟨⟨h1, h2⟩, h3⟩, h4⟩, h5⟩, h6⟩, h7⟩ := h
  subst h1; subst h3; subst h5; subst h6
  rcases sz with _ | ⟨wd, ht⟩
  · simp at h7
  · rcases sup with _ | b
    · rcases title with _ | t <;>
        simp_all [CrosstermWindow.new, windowFor, initTraceFor, InitEnv.ske]
    · cases b <;> rcases title with _ | t <;>
        simp_all [CrosstermWindow.new, windowFor, initTraceFor, InitEnv.ske]

/-- When some initialization step fails, `CrosstermWindow::new` panics
(the result is an error). -/
theorem new_err_of_not_okFor (settings : CrosstermWindowSettings)
    (env : InitEnv) (h : env.okFor settings = false) :
    ∃ t, CrosstermWindow.new settings env = .error t := by
  obtain ⟨rmo, sup, qk, qs, qt, qc, fo, sz⟩ := env
  obtain ⟨cols, title⟩ := settings
  cases rmo <;> cases qk <;> cases qs <;> cases qt <;> cases qc <;> cases fo <;>
    rcases sup with _ | (_ | _) <;> rcases sz with _ | ⟨wd, ht⟩ <;>
    rcases title with _ | t <;>
    first
      | exact ⟨_, rfl⟩
      | exact absurd h (by simp [InitEnv.okFor, InitEnv.ske])

/-- C7: on startup the terminal is put into raw mode and an alternate
screen with mouse capture and focus reporting enabled, the window takes
its dimensions from the size query, and any failure of an
initialization step (raw mode, queueing, flush, size query) is fatal —
`new` panics instead of returning a window. -/
theorem startup_modes_and_failures_fatal (settings : CrosstermWindowSettings)
    (env : InitEnv) :
    (env.okFor settings = true →
      CrosstermWindow.new settings env =
        .ok (windowFor settings env, initTraceFor settings env) ∧
      TermCommand.enableRawMode ∈ initTraceFor settings env ∧
      TermCommand.enterAlternateScreen ∈ initTraceFor settings env ∧
      TermCommand.enableMouseCapture ∈ initTraceFor settings env ∧
      TermCommand.enableFocusChange ∈ initTraceFor settings env ∧
      env.size = some ((windowFor settings env).width,
        (windowFor settings env).height)) ∧
    (env.okFor settings = false →
      ∃ t, CrosstermWindow.new settings env = .error t) := by
  constructor
  · intro h
    refine ⟨new_ok_of_okFor settings env h, ?_, ?_, ?_, ?_, ?_⟩
    · rcases hs : env.ske <;> rcases ht : settings.title with _ | t <;>
        simp [initTraceFor, hs, ht]
    · rcases hs : env.ske <;> rcases ht : settings.title with _ | t <;>
        simp [initTraceFor, hs, ht]
    · rcases hs : env.ske <;> rcases ht : settings.title with _ | t <;>
        simp [initTraceFor, hs, ht]
    · rcases hs : env.ske <;> rcases ht : settings.title with _ | t <;>
        simp [initTraceFor, hs, ht]
    · have h7 : env.size.isSome = true := by
        simp only [InitEnv.okFor, Bool.and_eq_true] at h
        exact h.2
      rcases hz : env.size with _ | ⟨wd, ht⟩
      · rw [hz] at h7; simp at h7
      · simp [windowFor, hz]
  · exact new_err_of_not_okFor settings env

/-- Witness for `startup_modes_and_failures_fatal`: a fully successful
environment yields the window, and an environment whose flush fails
yields a panic. -/
theorem startup_modes_witness :
    (CrosstermWindow.new CrosstermWindowSettings.default
        ⟨true, some true, true, true, true, true, true, some (80, 24)⟩ =
      .ok (windowFor CrosstermWindowSettings.default
            ⟨true, some true, true, true, true, true, true, some (80, 24)⟩,
          initTraceFor CrosstermWindowSettings.default
            ⟨true, some true, true, true, true, true, true, some (80, 24)⟩)) ∧
    (∃ t, CrosstermWindow.new CrosstermWindowSettings.default
        ⟨true, some true, true, true, true, true, false, some (80, 24)⟩ =
      .error t) :=
  ⟨((startup_modes_and_failures_fatal CrosstermWindowSettings.default
      ⟨true, some true, true, true, true, true, true, some (80, 24)⟩).1
      (by decide)).1,
   (startup_modes_and_failures_fatal CrosstermWindowSettings.default
      ⟨true, some true, true, true, true, true, false, some (80, 24)⟩).2
      (by decide)⟩

/-- Event processing never changes whether the keyboard-enhancement
flags were pushed (only the resize arm touches the window, and it
updates only the dimensions). -/
theorem processEvent_supports (e : CEvent) (window : CrosstermWindow)
    (modifiers : KeyModifiers) (bevy_window : Entity) :
    ((processEvent e window modifiers bevy_window).2.1).supports_keyboard_enhancement
      = window.supports_keyboard_enhancement := by
  cases e <;> rfl

/-- Processing any event list preserves the enhancement flag. -/
theorem processEvents_supports (evs : List CEvent) (window : CrosstermWindow)
    (modifiers : KeyModifiers) (bevy_window : Entity) :
    ((processEvents evs window modifiers bevy_window).2.1).supports_keyboard_enhancement
      = window.supports_keyboard_enhancement := by
  induction evs generalizing window modifiers with
  | nil => rfl
  | cons e evs ih =>
    simp only [processEvents]
    rw [ih, processEvent_supports]

/-- A tick with no failing read and no host panic completes, and its
exit flag is exactly the script's `raisesExit`. -/
theorem tick_ok (bevy_window : Entity) (ts : TickScript) (st : LoopState)
    (hd : drainPanics ts.input = false) (hp : ts.hostPanics = false) :
    tick bevy_window ts st =
      .ok (processEvents (drainedEvents ts.input) st.window st.modifiers bevy_window).1
        ⟨(processEvents (drainedEvents ts.input) st.window st.modifiers bevy_window).2.1,
         (processEvents (drainedEvents ts.input) st.window st.modifiers bevy_window).2.2⟩
        ts.raisesExit := by
  unfold tick
  rw [crossterm_events_eq_processEvents _ _ _ _ hd]
  simp only [hp, Bool.false_eq_true, if_false, TickScript.raisesExit]
  rw [processEvents_appExit]

/-- A tick whose drain hits a failing read panics before the update. -/
theorem tick_drain_panic (bevy_window : Entity) (ts : TickScript)
    (st : LoopState) (hd : drainPanics ts.input = true) :
    tick bevy_window ts st = .panickedInDrain := by
  unfold tick
  rw [crossterm_events_panics _ _ _ _ hd]

/-- If every tick script is quiet (no panic, no exit), the loop consumes
the whole script, completes one update per tick, and is still running. -/
theorem runLoop_quiet (bevy_window : Entity) (script : List TickScript)
    (st : LoopState)
    (h : ∀ ts ∈ script, ts.panics = false ∧ ts.raisesExit = false) :
    (runLoop bevy_window script st).path = .running ∧
    (runLoop bevy_window script st).updates = script.length ∧
    (runLoop bevy_window script st).ticks = script.length := by
  induction script generalizing st with
  | nil => exact ⟨rfl, rfl, rfl⟩
  | cons ts rest ih =>
    have hts := h ts (List.mem_cons_self ts rest)
    have hd : drainPanics ts.input = false := by
      have := hts.1
      simp only [TickScript.panics, Bool.or_eq_false_iff] at this
      exact this.1
    have hp : ts.hostPanics = false := by
      have := hts.1
      simp only [TickScript.panics, Bool.or_eq_false_iff] at this
      exact this.2
    have hrest := fun t ht => h t (List.mem_cons_of_mem ts ht)
    simp only [runLoop, tick_ok bevy_window ts st hd hp, hts.2, Bool.false_eq_true,
      if_false]
    exact ⟨(ih _ hrest).1, by rw [(ih _ hrest).2.1, List.length_cons],
      by rw [(ih _ hrest).2.2, List.length_cons]⟩

/-- If the scripts before `ts` are quiet and `ts` completes while
raising an exit, the loop ends cleanly right after `ts`'s tick: every
tick up to and including it completed its update, and nothing ran
afterwards. -/
theorem runLoop_first_exit (bevy_window : Entity) (pre : List TickScript)
    (ts : TickScript) (rest : List TickScript) (st : LoopState)
    (hq : ∀ t ∈ pre, t.panics = false ∧ t.raisesExit = false)
    (htp : ts.panics = false) (hte : ts.raisesExit = true) :
    (runLoop bevy_window (pre ++ ts :: rest) st).path = .clean ∧
    (runLoop bevy_window (pre ++ ts :: rest) st).updates = pre.length + 1 ∧
    (runLoop bevy_window (pre ++ ts :: rest) st).ticks = pre.length + 1 := by
  induction pre generalizing st with
  | nil =>
    have hd : drainPanics ts.input = false := by
      simp only [TickScript.panics, Bool.or_eq_false_iff] at htp
      exact htp.1
    have hp : ts.hostPanics = false := by
      simp only [TickScript.panics, Bool.or_eq_false_iff] at htp
      exact htp.2
    simp [List.nil_append, runLoop, tick_ok bevy_window ts st hd hp, hte,
      if_true]
  | cons p pre ih =>
    have hpq := hq p (List.mem_cons_self p pre)
    have hd : drainPanics p.input = false := by
      have := hpq.1
      simp only [TickScript.panics, Bool.or_eq_false_iff] at this
      exact this.1
    have hp : p.hostPanics = false := by
      have := hpq.1
      simp only [TickScript.panics, Bool.or_eq_false_iff] at this
      exact this.2
    have hrest := fun t ht => hq t (List.mem_cons_of_mem p ht)
    simp only [List.cons_append, runLoop, tick_ok bevy_window p st hd hp, hpq.2,
      Bool.false_eq_true, if_false, List.append_eq]
    refine ⟨(ih _ hrest).1, ?_, ?_⟩
    · rw [(ih _ hrest).2.1, List.length_cons]
    · rw [(ih _ hrest).2.2, List.length_cons]

/-- If the scripts before `ts` are quiet and `ts`'s drain hits a failing
read, the loop aborts at `ts`'s tick before its update: the earlier
updates completed, `ts`'s did not, and the path is a panic. -/
theorem runLoop_first_drain_panic (bevy_window : Entity)
    (pre : List TickScript) (ts : TickScript) (rest : List TickScript)
    (st : LoopState)
    (hq : ∀ t ∈ pre, t.panics = false ∧ t.raisesExit = false)
    (hd : drainPanics ts.input = true) :
    (runLoop bevy_window (pre ++ ts :: rest) st).path = .panicked ∧
    (runLoop bevy_window (pre ++ ts :: rest) st).updates = pre.length ∧
    (runLoop bevy_window (pre ++ ts :: rest) st).ticks = pre.length + 1 := by
  induction pre generalizing st with
  | nil =>
    simp [List.nil_append, runLoop, tick_drain_panic bevy_window ts st hd]
  | cons p pre ih =>
    have hpq := hq p (List.mem_cons_self p pre)
    have hd2 : drainPanics p.input = false := by
      have := hpq.1
      simp only [TickScript.panics, Bool.or_eq_false_iff] at this
      exact this.1
    have hp2 : p.hostPanics = false := by
      have := hpq.1
      simp only [TickScript.panics, Bool.or_eq_false_iff] at this
      exact this.2
    have hrest := fun t ht => hq t (List.mem_cons_of_mem p ht)
    simp only [List.cons_append, runLoop, tick_ok bevy_window p st hd2 hp2, hpq.2,
      Bool.false_eq_true, if_false, List.append_eq]
    refine ⟨(ih _ hrest).1, ?_, ?_⟩
    · rw [(ih _ hrest).2.1, List.length_cons]
    · rw [(ih _ hrest).2.2, List.length_cons]

/-- The run loop never changes whether the keyboard-enhancement flags
were pushed. -/
theorem runLoop_supports (bevy_window : Entity) (script : List TickScript)
    (st : LoopState) :
    (runLoop bevy_window script st).state.window.supports_keyboard_enhancement
      = st.window.supports_keyboard_enhancement := by
  induction script generalizing st with
  | nil => rfl
  | cons ts rest ih =>
    by_cases hd : drainPanics ts.input = true
    · simp only [runLoop, tick_drain_panic bevy_window ts st hd]
    · have hd2 : drainPanics ts.input = false := by
        cases h : drainPanics ts.input
        · rfl
        · exact absurd h hd
      by_cases hp : ts.hostPanics = true
      · unfold runLoop tick
        rw [crossterm_events_eq_processEvents _ _ _ _ hd2]
        simp only [hp, if_true]
        exact processEvents_supports _ _ _ _
      · have hp2 : ts.hostPanics = false := by
          cases h : ts.hostPanics
          · rfl
          · exact absurd h hp
        simp only [runLoop, tick_ok bevy_window ts st hd2 hp2]
        by_cases he : ts.raisesExit = true
        · simp only [he, if_true]
          exact processEvents_supports _ _ _ _
        · have he2 : ts.raisesExit = false := by
            cases h : ts.raisesExit
            · rfl
            · exact absurd h he
          simp only [he2, Bool.false_eq_true, if_false]
          rw [ih]
          exact processEvents_supports _ _ _ _

/-- The drop teardown always disables mouse capture and focus-change
reporting, shows the cursor, and disables raw mode. -/
theorem dropTeardown_mems (w : CrosstermWindow) :
    TermCommand.disableMouseCapture ∈ w.dropTeardown ∧
    TermCommand.disableFocusChange ∈ w.dropTeardown ∧
    TermCommand.showCursor ∈ w.dropTeardown ∧
    TermCommand.disableRawMode ∈ w.dropTeardown := by
  rcases h : w.supports_keyboard_enhancement <;>
    simp [CrosstermWindow.dropTeardown, h]

/-- The drop teardown pops the keyboard-enhancement flags exactly when
they were pushed. -/
theorem popKbd_mem_dropTeardown (w : CrosstermWindow) :
    (TermCommand.popKeyboardEnhancementFlags ∈ w.dropTeardown) ↔
      w.supports_keyboard_enhancement = true := by
  rcases h : w.supports_keyboard_enhancement <;>
    simp [CrosstermWindow.dropTeardown, h]

/-- The init trace pushes the keyboard-enhancement flags exactly when
the probe reported support. -/
theorem pushKbd_mem_initTraceFor (settings : CrosstermWindowSettings)
    (env : InitEnv) :
    (TermCommand.pushKeyboardEnhancementFlags ∈ initTraceFor settings env) ↔
      env.ske = true := by
  rcases h : env.ske <;> rcases ht : settings.title with _ | t <;>
    simp [initTraceFor, h, ht]

/-- Initialization never leaves the alternate screen. -/
theorem leave_not_mem_initTraceFor (settings : CrosstermWindowSettings)
    (env : InitEnv) :
    TermCommand.leaveAlternateScreen ∉ initTraceFor settings env := by
  rcases h : env.ske <;> rcases ht : settings.title with _ | t <;>
    simp [initTraceFor, h, ht]

/-- The drop teardown never leaves the alternate screen (a crash's
diagnostics stay visible). -/
theorem leave_not_mem_dropTeardown (w : CrosstermWindow) :
    TermCommand.leaveAlternateScreen ∉ w.dropTeardown := by
  rcases h : w.supports_keyboard_enhancement <;>
    simp [CrosstermWindow.dropTeardown, h]

/-- Initialization never pops the keyboard-enhancement flags. -/
theorem pop_not_mem_initTraceFor (settings : CrosstermWindowSettings)
    (env : InitEnv) :
    TermCommand.popKeyboardEnhancementFlags ∉ initTraceFor settings env := by
  rcases h : env.ske <;> rcases ht : settings.title with _ | t <;>
    simp [initTraceFor, h, ht]

/-- The drop teardown never pushes the keyboard-enhancement flags. -/
theorem push_not_mem_dropTeardown (w : CrosstermWindow) :
    TermCommand.pushKeyboardEnhancementFlags ∉ w.dropTeardown := by
  rcases h : w.supports_keyboard_enhancement <;>
    simp [CrosstermWindow.dropTeardown, h]

/-- The window `new` returns records the probe's answer. -/
theorem windowFor_supports (settings : CrosstermWindowSettings)
    (env : InitEnv) :
    (windowFor settings env).supports_keyboard_enhancement = env.ske := by
  unfold windowFor
  rcases h : env.size with _ | ⟨wd, ht⟩ <;> simp [h]

/-- C1 counterexample: with a successful `enable_raw_mode` but a failing
initial flush, the program exits by panic with raw mode enabled and
never restored — the window value was never constructed, so its
finalizer cannot run.  This refutes the claim for exit paths inside
initialization. -/
theorem teardown_counterexample :
    (crossterm_runner CrosstermWindowSettings.default
      ⟨true, some false, true, true, true, true, false, some (80, 24)⟩
      .loopMode [] 7).path = .panicked ∧
    TermCommand.enableRawMode ∈
      (crossterm_runner CrosstermWindowSettings.default
        ⟨true, some false, true, true, true, true, false, some (80, 24)⟩
        .loopMode [] 7).trace ∧
    TermCommand.disableRawMode ∉
      (crossterm_runner CrosstermWindowSettings.default
        ⟨true, some false, true, true, true, true, false, some (80, 24)⟩
        .loopMode [] 7).trace := by
  decide

/-- C1 (amended): once window initialization has succeeded, every exit
of the run loop — clean exit and unwinding panic alike — restores mouse
capture, focus-change reporting, cursor visibility and raw mode; the
keyboard-enhancement flags are popped exactly when they were pushed;
and the alternate screen is left exactly on clean shutdown. -/
theorem teardown_on_all_loop_exits (settings : CrosstermWindowSettings)
    (env : InitEnv) (script : List TickScript) (bevy_window : Entity)
    (hok : env.okFor settings = true)
    (hpath : (crossterm_runner settings env .loopMode script bevy_window).path
      ≠ .running) :
    TermCommand.disableMouseCapture ∈
      (crossterm_runner settings env .loopMode script bevy_window).trace ∧
    TermCommand.disableFocusChange ∈
      (crossterm_runner settings env .loopMode script bevy_window).trace ∧
    TermCommand.showCursor ∈
      (crossterm_runner settings env .loopMode script bevy_window).trace ∧
    TermCommand.disableRawMode ∈
      (crossterm_runner settings env .loopMode script bevy_window).trace ∧
    (TermCommand.popKeyboardEnhancementFlags ∈
        (crossterm_runner settings env .loopMode script bevy_window).trace ↔
      TermCommand.pushKeyboardEnhancementFlags ∈
        (crossterm_runner settings env .loopMode script bevy_window).trace) ∧
    (TermCommand.leaveAlternateScreen ∈
        (crossterm_runner settings env .loopMode script bevy_window).trace ↔
      (crossterm_runner settings env .loopMode script bevy_window).path
        = .clean) := by
  have hnew := new_ok_of_okFor settings env hok
  have hsup := runLoop_supports bevy_window script
    ⟨windowFor settings env, KeyModifiers.empty⟩
  unfold crossterm_runner at hpath ⊢
  rw [hnew] at hpath ⊢
  rcases hp : (runLoop bevy_window script
      ⟨windowFor settings env, KeyModifiers.empty⟩).path with _ | _ | _  <;>
    simp only [hp] at hpath ⊢
  · have hw : (runLoop bevy_window script
        ⟨windowFor settings env, KeyModifiers.empty⟩).state.window.supports_keyboard_enhancement
        = env.ske := by rw [hsup, windowFor_supports]
    refine ⟨?_, ?_, ?_, ?_, ?_, ?_⟩
    · exact List.mem_append_right _ ((dropTeardown_mems _).1)
    · exact List.mem_append_right _ ((dropTeardown_mems _).2.1)
    · exact List.mem_append_right _ ((dropTeardown_mems _).2.2.1)
    · exact List.mem_append_right _ ((dropTeardown_mems _).2.2.2)
    · simp [List.mem_append, pop_not_mem_initTraceFor,
        popKbd_mem_dropTeardown, pushKbd_mem_initTraceFor,
        push_not_mem_dropTeardown, hw]
    · simp [List.mem_append, leave_not_mem_initTraceFor,
        leave_not_mem_dropTeardown]
  · have hw : (runLoop bevy_window script
        ⟨windowFor settings env, KeyModifiers.empty⟩).state.window.supports_keyboard_enhancement
        = env.ske := by rw [hsup, windowFor_supports]
    refine ⟨?_, ?_, ?_, ?_, ?_, ?_⟩
    · exact List.mem_append_right _ ((dropTeardown_mems _).1)
    · exact List.mem_append_right _ ((dropTeardown_mems _).2.1)
    · exact List.mem_append_right _ ((dropTeardown_mems _).2.2.1)
    · exact List.mem_append_right _ ((dropTeardown_mems _).2.2.2)
    · simp [List.mem_append, pop_not_mem_initTraceFor,
        popKbd_mem_dropTeardown, pushKbd_mem_initTraceFor,
        push_not_mem_dropTeardown, hw]
    · simp [List.mem_append, leave_not_mem_initTraceFor,
        leave_not_mem_dropTeardown]
  · exact absurd rfl hpath

/-- Witness for `teardown_on_all_loop_exits` at a concrete successful
environment and a one-tick script whose host raises the exit. -/
theorem teardown_on_all_loop_exits_witness :
    ((⟨true, some true, true, true, true, true, true, some (80, 24)⟩ :
        InitEnv).okFor CrosstermWindowSettings.default = true) ∧
    ((crossterm_runner CrosstermWindowSettings.default
        ⟨true, some true, true, true, true, true, true, some (80, 24)⟩
        .loopMode [⟨[], false, true⟩] 7).path ≠ .running) ∧
    (TermCommand.disableMouseCapture ∈
      (crossterm_runner CrosstermWindowSettings.default
        ⟨true, some true, true, true, true, true, true, some (80, 24)⟩
        .loopMode [⟨[], false, true⟩] 7).trace ∧
     TermCommand.disableFocusChange ∈
      (crossterm_runner CrosstermWindowSettings.default
        ⟨true, some true, true, true, true, true, true, some (80, 24)⟩
        .loopMode [⟨[], false, true⟩] 7).trace ∧
     TermCommand.showCursor ∈
      (crossterm_runner CrosstermWindowSettings.default
        ⟨true, some true, true, true, true, true, true, some (80, 24)⟩
        .loopMode [⟨[], false, true⟩] 7).trace ∧
     TermCommand.disableRawMode ∈
      (crossterm_runner CrosstermWindowSettings.default
        ⟨true, some true, true, true, true, true, true, some (80, 24)⟩
        .loopMode [⟨[], false, true⟩] 7).trace ∧
     (TermCommand.popKeyboardEnhancementFlags ∈
        (crossterm_runner CrosstermWindowSettings.default
          ⟨true, some true, true, true, true, true, true, some (80, 24)⟩
          .loopMode [⟨[], false, true⟩] 7).trace ↔
      TermCommand.pushKeyboardEnhancementFlags ∈
        (crossterm_runner CrosstermWindowSettings.default
          ⟨true, some true, true, true, true, true, true, some (80, 24)⟩
          .loopMode [⟨[], false, true⟩] 7).trace) ∧
     (TermCommand.leaveAlternateScreen ∈
        (crossterm_runner CrosstermWindowSettings.default
          ⟨true, some true, true, true, true, true, true, some (80, 24)⟩
          .loopMode [⟨[], false, true⟩] 7).trace ↔
      (crossterm_runner CrosstermWindowSettings.default
        ⟨true, some true, true, true, true, true, true, some (80, 24)⟩
        .loopMode [⟨[], false, true⟩] 7).path = .clean)) :=
  ⟨by decide, by decide,
   teardown_on_all_loop_exits CrosstermWindowSettings.default
     ⟨true, some true, true, true, true, true, true, some (80, 24)⟩
     [⟨[], false, true⟩] 7 (by decide) (by decide)⟩

/-- C3: when every earlier tick is quiet and some tick raises an
`AppExit` (by the host during its update or by a drained Ctrl-C), the
exit is observed only after that tick's update has completed — the
exiting tick still counts a completed update — the loop stops (no tick
of the remaining script starts), and the runner proceeds to teardown,
leaving the alternate screen. -/
theorem exit_observed_after_full_update (settings : CrosstermWindowSettings)
    (env : InitEnv) (bevy_window : Entity) (pre : List TickScript)
    (ts : TickScript) (rest : List TickScript)
    (hok : env.okFor settings = true)
    (hq : ∀ t ∈ pre, t.panics = false ∧ t.raisesExit = false)
    (htp : ts.panics = false) (hte : ts.raisesExit = true) :
    (crossterm_runner settings env .loopMode (pre ++ ts :: rest)
      bevy_window).path = .clean ∧
    (crossterm_runner settings env .loopMode (pre ++ ts :: rest)
      bevy_window).updates = pre.length + 1 ∧
    (crossterm_runner settings env .loopMode (pre ++ ts :: rest)
      bevy_window).ticks = pre.length + 1 ∧
    TermCommand.leaveAlternateScreen ∈
      (crossterm_runner settings env .loopMode (pre ++ ts :: rest)
        bevy_window).trace := by
  have hnew := new_ok_of_okFor settings env hok
  have hr := runLoop_first_exit bevy_window pre ts rest
    ⟨windowFor settings env, KeyModifiers.empty⟩ hq htp hte
  unfold crossterm_runner
  rw [hnew]
  simp only [hr.1]
  refine ⟨?_, hr.2.1, hr.2.2, ?_⟩
  · trivial
  · exact List.mem_append_left _
      (List.mem_append_right _ (List.mem_singleton_self _))

/-- Witness for `exit_observed_after_full_update`: a single tick whose
drained input is a Ctrl-C press. -/
theorem exit_observed_after_full_update_witness :
    ((⟨true, some true, true, true, true, true, true, some (80, 24)⟩ :
        InitEnv).okFor CrosstermWindowSettings.default = true) ∧
    ((⟨[.readOk (.key ⟨.char 'c',
        ⟨false, true, false, false, false, false⟩, .press⟩)], false, false⟩ :
        TickScript).panics = false) ∧
    ((⟨[.readOk (.key ⟨.char 'c',
        ⟨false, true, false, false, false, false⟩, .press⟩)], false, false⟩ :
        TickScript).raisesExit = true) ∧
    ((crossterm_runner CrosstermWindowSettings.default
        ⟨true, some true, true, true, true, true, true, some (80, 24)⟩
        .loopMode
        [⟨[.readOk (.key ⟨.char 'c',
          ⟨false, true, false, false, false, false⟩, .press⟩)], false, false⟩]
        7).path = .clean ∧
     (crossterm_runner CrosstermWindowSettings.default
        ⟨true, some true, true, true, true, true, true, some (80, 24)⟩
        .loopMode
        [⟨[.readOk (.key ⟨.char 'c',
          ⟨false, true, false, false, false, false⟩, .press⟩)], false, false⟩]
        7).updates = 1) :=
  ⟨by decide, by decide, by decide, by
    have h := exit_observed_after_full_update CrosstermWindowSettings.default
      ⟨true, some true, true, true, true, true, true, some (80, 24)⟩ 7 []
      ⟨[.readOk (.key ⟨.char 'c',
        ⟨false, true, false, false, false, false⟩, .press⟩)], false, false⟩ []
      (by decide) (by intro t ht; cases ht) (by decide) (by decide)
    exact ⟨h.1, h.2.1⟩⟩

/-- C5: when every earlier tick is quiet and a tick's drain hits a
failing read, the `unwrap` panics: that tick's update never runs, the
loop aborts, and teardown is forced — raw mode is disabled while the
alternate screen is kept (no clean `LeaveAlternateScreen`). -/
theorem read_failure_aborts_loop (settings : CrosstermWindowSettings)
    (env : InitEnv) (bevy_window : Entity) (pre : List TickScript)
    (ts : TickScript) (rest : List TickScript)
    (hok : env.okFor settings = true)
    (hq : ∀ t ∈ pre, t.panics = false ∧ t.raisesExit = false)
    (hd : drainPanics ts.input = true) :
    (crossterm_runner settings env .loopMode (pre ++ ts :: rest)
      bevy_window).path = .panicked ∧
    (crossterm_runner settings env .loopMode (pre ++ ts :: rest)
      bevy_window).updates = pre.length ∧
    (crossterm_runner settings env .loopMode (pre ++ ts :: rest)
      bevy_window).ticks = pre.length + 1 ∧
    TermCommand.disableRawMode ∈
      (crossterm_runner settings env .loopMode (pre ++ ts :: rest)
        bevy_window).trace ∧
    TermCommand.leaveAlternateScreen ∉
      (crossterm_runner settings env .loopMode (pre ++ ts :: rest)
        bevy_window).trace := by
  have hnew := new_ok_of_okFor settings env hok
  have hr := runLoop_first_drain_panic bevy_window pre ts rest
    ⟨windowFor settings env, KeyModifiers.empty⟩ hq hd
  unfold crossterm_runner
  rw [hnew]
  simp only [hr.1]
  refine ⟨?_, hr.2.1, hr.2.2, ?_, ?_⟩
  · trivial
  · exact List.mem_append_right _ ((dropTeardown_mems _).2.2.2)
  · simp [List.mem_append, leave_not_mem_initTraceFor,
      leave_not_mem_dropTeardown]

/-- Witness for `read_failure_aborts_loop`: a single tick whose drain
hits a failing read. -/
theorem read_failure_aborts_loop_witness :
    ((⟨true, some true, true, true, true, true, true, some (80, 24)⟩ :
        InitEnv).okFor CrosstermWindowSettings.default = true) ∧
    (drainPanics ([DrainStep.readErr]) = true) ∧
    ((crossterm_runner CrosstermWindowSettings.default
        ⟨true, some true, true, true, true, true, true, some (80, 24)⟩
        .loopMode [⟨[DrainStep.readErr], false, false⟩] 7).path = .panicked ∧
     (crossterm_runner CrosstermWindowSettings.default
        ⟨true, some true, true, true, true, true, true, some (80, 24)⟩
        .loopMode [⟨[DrainStep.readErr], false, false⟩] 7).updates = 0) :=
  ⟨by decide, by decide, by
    have h := read_failure_aborts_loop CrosstermWindowSettings.default
      ⟨true, some true, true, true, true, true, true, some (80, 24)⟩ 7 []
      ⟨[DrainStep.readErr], false, false⟩ []
      (by decide) (by intro t ht; cases ht) (by decide)
    exact ⟨h.1, h.2.1⟩⟩

/-- With duplicate-free ids, looking an entity up in the snapshot taken
after rendering returns exactly its just-recorded details. -/
theorem lookup_update_previous_position (assets : Nat → Nat × Nat)
    (scene : List SceneEntity) (e : SceneEntity)
    (hnd : (scene.map SceneEntity.id).Nodup) (he : e ∈ scene) :
    (update_previous_position assets scene).lookup e.id =
      some ⟨e.rect assets, e.sprite, e.style, e.posV, e.spriteV, e.styleV⟩ := by
  induction scene with
  | nil => cases he
  | cons a tl ih =>
    simp only [List.map_cons, List.nodup_cons] at hnd
    obtain ⟨hna, hnd⟩ := hnd
    rcases List.mem_cons.mp he with rfl | he2
    · simp [update_previous_position, List.lookup]
    · have hne : (e.id == a.id) = false := by
        rw [beq_eq_false_iff_ne]
        intro hcontra
        exact hna (hcontra ▸ List.mem_map_of_mem SceneEntity.id he2)
      simp only [update_previous_position, List.map_cons, List.lookup, hne]
      exact ih hnd he2

/-- Right after a render pass, no live entity counts as changed. -/
theorem changed_after_update (assets : Nat → Nat × Nat)
    (scene : List SceneEntity) (hnd : (scene.map SceneEntity.id).Nodup)
    (e : SceneEntity) (he : e ∈ scene) :
    SceneEntity.changed assets (update_previous_position assets scene) e
      = false := by
  unfold SceneEntity.changed
  rw [lookup_update_previous_position assets scene e hnd he]
  simp

/-- Right after a render pass, no tracked entity counts as removed. -/
theorem removedIds_after_update (assets : Nat → Nat × Nat)
    (scene : List SceneEntity) :
    removedIds scene (update_previous_position assets scene) = [] := by
  have hfil : (update_previous_position assets scene).filter
      (fun p => !(scene.any (fun e => e.id == p.1))) = [] := by
    rw [List.filter_eq_nil_iff]
    intro p hp
    simp only [update_previous_position, List.mem_map] at hp
    obtain ⟨e, he, rfl⟩ := hp
    intro hcontra
    have hany : scene.any (fun x => x.id == e.id) = true :=
      List.any_eq_true.mpr ⟨e, he, by simp⟩
    rw [hany] at hcontra
    simp at hcontra
  simp [removedIds, hfil]

/-- Right after a render pass over an unmutated scene with stable ids,
the damage seed set is empty. -/
theorem seedIds_after_update (assets : Nat → Nat × Nat)
    (scene : List SceneEntity) (hnd : (scene.map SceneEntity.id).Nodup) :
    seedIds assets scene (update_previous_position assets scene) = [] := by
  unfold seedIds
  rw [removedIds_after_update, List.append_nil]
  rw [show scene.filter (fun e =>
      SceneEntity.changed assets (update_previous_position assets scene) e &&
        (e.rect assets).hasArea) = [] from
    List.filter_eq_nil_iff.mpr (fun e he => by
      rw [changed_after_update assets scene hnd e he]
      simp)]
  rfl

/-- C6: running the render pass a second time with no intervening scene
mutation (same entities, same versions, no spawn, no removal) yields an
empty `EntitiesToRedraw` on the second run. -/
theorem render_pass_idempotent (assets : Nat → Nat × Nat)
    (scene : List SceneEntity) (st : RenderState)
    (hnd : (scene.map SceneEntity.id).Nodup) :
    (renderPass assets scene (renderPass assets scene st)).toRedraw = [] := by
  show calculate_entities_to_redraw assets scene
    (update_previous_position assets scene) = []
  unfold calculate_entities_to_redraw
  rw [seedIds_after_update assets scene hnd]
  rfl

/-- Witness for `render_pass_idempotent` at a concrete two-entity
scene. -/
theorem render_pass_idempotent_witness :
    (([⟨1, ⟨0, 0, 0⟩, 0, 0, .solid, 1, 1, 1⟩,
       ⟨2, ⟨1, 1, 1⟩, 0, 0, .transparent, 1, 1, 1⟩] :
        List SceneEntity).map SceneEntity.id).Nodup ∧
    (renderPass (fun _ => (3, 2))
      [⟨1, ⟨0, 0, 0⟩, 0, 0, .solid, 1, 1, 1⟩,
       ⟨2, ⟨1, 1, 1⟩, 0, 0, .transparent, 1, 1, 1⟩]
      (renderPass (fun _ => (3, 2))
        [⟨1, ⟨0, 0, 0⟩, 0, 0, .solid, 1, 1, 1⟩,
         ⟨2, ⟨1, 1, 1⟩, 0, 0, .transparent, 1, 1, 1⟩]
        ⟨[], []⟩)).toRedraw = [] :=
  ⟨by decide,
   render_pass_idempotent (fun _ => (3, 2))
     [⟨1, ⟨0, 0, 0⟩, 0, 0, .solid, 1, 1, 1⟩,
      ⟨2, ⟨1, 1, 1⟩, 0, 0, .transparent, 1, 1, 1⟩]
     ⟨[], []⟩ (by decide)⟩

end BevyCrossterm
